import Mathlib

/-!
Verification of the node-lifecycle-aware link teardown orchestrator of
`terraform-provider-maas` (file `maas/resource_maas_network_interface_link.go`).

The gateway client is modelled as a record of response functions; each embedded
operation returns the ordered list of gateway calls it issued together with its
outcome, mirroring the Go control flow statement by statement.
-/

namespace Maas

/-- Node status constants of the `gomaasclient` `node` package (`type Status int`,
assigned by `iota`). The claims depend only on the constants being pairwise
distinct, never on the particular numbers. -/
def StatusDefault : Nat := 0

def StatusNew : Nat := 1

def StatusCommissioning : Nat := 2

def StatusFailedCommissioning : Nat := 3

def StatusMissing : Nat := 4

def StatusReady : Nat := 5

def StatusReserved : Nat := 6

def StatusAllocated : Nat := 7

def StatusDeploying : Nat := 8

def StatusDeployed : Nat := 9

def StatusRetired : Nat := 10

def StatusBroken : Nat := 11

def StatusFailedDeployment : Nat := 12

def StatusReleasing : Nat := 13

def StatusFailedReleasing : Nat := 14

def StatusDiskErasing : Nat := 15

def StatusFailedDiskErasing : Nat := 16

def StatusRescueMode : Nat := 17

def StatusEnteringRescureMode : Nat := 18

def StatusFailedEnteringRescueMode : Nat := 19

def StatusExitingRescueMode : Nat := 20

def StatusFailedExitingRescueMode : Nat := 21

def StatusTesting : Nat := 22

def StatusFailedTesting : Nat := 23

/-- The `case` list of the first (valid states) arm of the `switch` in
`unlinkSubnet` (source lines 266). -/
def validStatuses : List Nat :=
  [StatusNew, StatusReady, StatusAllocated, StatusBroken]

/-- The `case` list of the transitional-states arm of the `switch` in
`unlinkSubnet` (source lines 274-281). -/
def transitionalStatuses : List Nat :=
  [StatusCommissioning, StatusDeploying, StatusReleasing, StatusDiskErasing,
   StatusEnteringRescureMode, StatusExitingRescueMode, StatusTesting]

/-- The `case` list of the non-transitional-states arm of the `switch` in
`unlinkSubnet` (source lines 302-314). -/
def nonTransitionalStatuses : List Nat :=
  [StatusFailedCommissioning, StatusMissing, StatusReserved, StatusDeployed,
   StatusRetired, StatusFailedDeployment, StatusFailedReleasing,
   StatusFailedDiskErasing, StatusRescueMode, StatusFailedEnteringRescueMode,
   StatusFailedExitingRescueMode, StatusFailedTesting]

/-- The four dispatch categories of the `switch` on `machine.Status` in
`unlinkSubnet` (the spec's Node Status Classifier). -/
inductive StatusCategory where
  | valid
  | transitional
  | nonTransitional
  | unknown
deriving Repr, DecidableEq

/-- The status classification implemented by the `switch` statement of
`unlinkSubnet` (source lines 264-330): Go `switch` tests the `case` lists in
order, and the `default` arm yields Unknown. -/
def classify (status : Nat) : StatusCategory :=
  if status ∈ validStatuses then .valid
  else if status ∈ transitionalStatuses then .transitional
  else if status ∈ nonTransitionalStatuses then .nonTransitional
  else .unknown

/-- A Go `error` value returned by a gateway call. The orchestrator never
inspects an error, so the payload is opaque; the `notFound` flag lets the
claims distinguish a not-found failure from any other failure. -/
inductive GoError where
  | notFound (msg : String)
  | other (msg : String)
deriving Repr, DecidableEq

/-- The fields of `entity.Machine` the orchestrator reads. -/
structure Machine where
  systemID : String
  status : Nat
deriving Repr, DecidableEq

/-- The fields of `entity.NetworkInterfaceLink` this component reads. -/
structure NetworkInterfaceLink where
  id : Int
  ipAddress : String
deriving Repr, DecidableEq

/-- The fields of `entity.NetworkInterface` this component reads. -/
structure NetworkInterface where
  id : Int
  links : List NetworkInterfaceLink
deriving Repr, DecidableEq

/-- `entity.NetworkInterfaceLinkParams`. -/
structure NetworkInterfaceLinkParams where
  subnet : Int
  mode : String
  defaultGateway : Bool
  ipAddress : String
deriving Repr, DecidableEq

/-- One gateway call, recorded with its arguments, in the order issued. -/
inductive GatewayCall where
  | machineGet (systemID : String)
  | machineAbort (systemID : String) (comment : String)
  | machineRelease (systemID : String)
  | machineClearDefaultGateways (systemID : String)
  | interfaceGet (systemID : String) (interfaceID : Int)
  | linkSubnet (systemID : String) (interfaceID : Int)
      (params : NetworkInterfaceLinkParams)
  | unlinkSubnetCall (systemID : String) (interfaceID : Int) (linkID : Int)
  | setDefaultGateway (systemID : String) (interfaceID : Int) (linkID : Int)
deriving Repr, DecidableEq

/-- The gateway client, modelled as the responses it gives to each call.
Result payloads mirror the Go signatures (`Machine.Release`,
`NetworkInterface.UnlinkSubnet` etc. return an entity that the orchestrator
discards). -/
structure Client where
  machineGet : String → Except GoError Machine
  machineAbort : String → String → Except GoError Machine
  machineRelease : String → Except GoError Machine
  machineClearDefaultGateways : String → Except GoError Machine
  interfaceGet : String → Int → Except GoError NetworkInterface
  linkSubnet : String → Int → NetworkInterfaceLinkParams →
      Except GoError NetworkInterface
  unlinkSubnetCall : String → Int → Int → Except GoError NetworkInterface
  setDefaultGateway : String → Int → Int → Except GoError NetworkInterface

/-- The error component of a gateway result (`err` after `_, err = call(...)`). -/
def errOf {α : Type} : Except GoError α → Option GoError
  | .error e => some e
  | .ok _ => none

/-- The audit message built at source line 282. -/
def abortEventLogMsg (systemID : String) : String :=
  "Terraform requested machine " ++ systemID ++
    " be destroyed. Aborting current operation..."

/-- `unlinkSubnet` (source lines 244-333): fetch the machine (any fetch error
is turned into a `nil` return), then dispatch on its status. Returns the
ordered gateway-call trace and the Go return value (`none` = `nil`). -/
def unlinkSubnet (c : Client) (machineSystemID : String)
    (networkInterfaceID linkID : Int) : List GatewayCall × Option GoError :=
  match c.machineGet machineSystemID with
  | .error _ => ([.machineGet machineSystemID], none)
  | .ok machine =>
    match classify machine.status with
    | .valid =>
      ([.machineGet machineSystemID,
        .unlinkSubnetCall machineSystemID networkInterfaceID linkID],
       errOf (c.unlinkSubnetCall machineSystemID networkInterfaceID linkID))
    | .transitional =>
      let eventLogMsg := abortEventLogMsg machine.systemID
      match c.machineAbort machine.systemID eventLogMsg with
      | .error e =>
        ([.machineGet machineSystemID,
          .machineAbort machine.systemID eventLogMsg], some e)
      | .ok machine2 =>
        match c.machineRelease machine2.systemID with
        | .error e =>
          ([.machineGet machineSystemID,
            .machineAbort machine.systemID eventLogMsg,
            .machineRelease machine2.systemID], some e)
        | .ok _ =>
          ([.machineGet machineSystemID,
            .machineAbort machine.systemID eventLogMsg,
            .machineRelease machine2.systemID,
            .unlinkSubnetCall machineSystemID networkInterfaceID linkID],
           errOf (c.unlinkSubnetCall machineSystemID networkInterfaceID linkID))
    | .nonTransitional =>
      match c.machineRelease machine.systemID with
      | .error e =>
        ([.machineGet machineSystemID,
          .machineRelease machine.systemID], some e)
      | .ok _ =>
        ([.machineGet machineSystemID,
          .machineRelease machine.systemID,
          .unlinkSubnetCall machineSystemID networkInterfaceID linkID],
         errOf (c.unlinkSubnetCall machineSystemID networkInterfaceID linkID))
    | .unknown =>
      ([.machineGet machineSystemID],
       some (.other ("cannot unlink subnet from machine in status " ++
         toString machine.status)))

/-- Outcome of `createNetworkInterfaceLink`: a Go function returning
`(*entity.NetworkInterfaceLink, error)`, except that `&networkInterface.Links[0]`
panics when the slice is empty, modelled by `indexOutOfRange`. -/
inductive CreateLinkResult where
  | ok (link : NetworkInterfaceLink)
  | err (e : GoError)
  | indexOutOfRange
deriving Repr, DecidableEq

/-- The `for _, link := range networkInterface.Links` loop of
`createNetworkInterfaceLink` (source lines 209-214): tear down each link in
order, stopping at the first error. -/
def clearLinks (c : Client) (machineSystemID : String)
    (networkInterfaceID : Int) :
    List NetworkInterfaceLink → List GatewayCall × Option GoError
  | [] => ([], none)
  | link :: rest =>
    match unlinkSubnet c machineSystemID networkInterfaceID link.id with
    | (tr, some e) => (tr, some e)
    | (tr, none) =>
      match clearLinks c machineSystemID networkInterfaceID rest with
      | (tr2, r) => (tr ++ tr2, r)

/-- `createNetworkInterfaceLink` (source lines 207-223): clear every existing
link via `unlinkSubnet`, then issue one `LinkSubnet` call and return the first
link of the interface it answers with. -/
def createNetworkInterfaceLink (c : Client) (machineSystemID : String)
    (networkInterface : NetworkInterface)
    (params : NetworkInterfaceLinkParams) :
    List GatewayCall × CreateLinkResult :=
  match clearLinks c machineSystemID networkInterface.id networkInterface.links with
  | (tr, some e) => (tr, .err e)
  | (tr, none) =>
    match c.linkSubnet machineSystemID networkInterface.id params with
    | .error e =>
      (tr ++ [.linkSubnet machineSystemID networkInterface.id params], .err e)
    | .ok ni =>
      (tr ++ [.linkSubnet machineSystemID networkInterface.id params],
       match ni.links.head? with
       | some l => .ok l
       | none => .indexOutOfRange)

/-- The scan of `networkInterface.Links` in `getNetworkInterfaceLink`
(source lines 231-235): first link whose ID matches. -/
def findLink (linkID : Int) : List NetworkInterfaceLink →
    Option NetworkInterfaceLink
  | [] => none
  | l :: rest => if l.id = linkID then some l else findLink linkID rest

/-- The `fmt.Errorf` message of source line 237. -/
def linkNotFoundMsg (linkID networkInterfaceID : Int)
    (machineSystemID : String) : String :=
  "cannot find link (" ++ toString linkID ++
    ") on the network interface (" ++ toString networkInterfaceID ++
    ") from machine (" ++ machineSystemID ++ ")"

/-- `getNetworkInterfaceLink` (source lines 225-238): fetch the interface and
scan its links for the requested ID. -/
def getNetworkInterfaceLink (c : Client) (machineSystemID : String)
    (networkInterfaceID linkID : Int) :
    List GatewayCall × Except GoError NetworkInterfaceLink :=
  match c.interfaceGet machineSystemID networkInterfaceID with
  | .error e => ([.interfaceGet machineSystemID networkInterfaceID], .error e)
  | .ok networkInterface =>
    ([.interfaceGet machineSystemID networkInterfaceID],
     match findLink linkID networkInterface.links with
     | some l => .ok l
     | none =>
       .error (.other (linkNotFoundMsg linkID networkInterfaceID
         machineSystemID)))

/-- `deleteNetworkInterfaceLink` (source lines 240-242): delegates to
`unlinkSubnet`. -/
def deleteNetworkInterfaceLink (c : Client) (machineSystemID : String)
    (networkInterfaceID linkID : Int) : List GatewayCall × Option GoError :=
  unlinkSubnet c machineSystemID networkInterfaceID linkID

/-- The update operation of `resourceNetworkInterfaceLinkUpdate` (source lines
157-166): identifier resolution before it and the refresh `Read` after it are
outside this portion; the system ID and interface ID arrive already resolved.
Unconditionally clear all default gateways, then set one only when the
`default_gateway` attribute is true. -/
def resourceNetworkInterfaceLinkUpdate (c : Client) (systemID : String)
    (networkInterfaceID linkID : Int) (defaultGateway : Bool) :
    List GatewayCall × Option GoError :=
  match c.machineClearDefaultGateways systemID with
  | .error e => ([.machineClearDefaultGateways systemID], some e)
  | .ok _ =>
    if defaultGateway then
      ([.machineClearDefaultGateways systemID,
        .setDefaultGateway systemID networkInterfaceID linkID],
       errOf (c.setDefaultGateway systemID networkInterfaceID linkID))
    else
      ([.machineClearDefaultGateways systemID], none)

/-- Whether a recorded gateway call is the link-creation (`LinkSubnet`) call. -/
def isLinkSubnetCall : GatewayCall → Bool
  | .linkSubnet _ _ _ => true
  | _ => false

/-- A sample link entity for concrete instantiations. -/
def demoLink : NetworkInterfaceLink := { id := 42, ipAddress := "10.0.0.5" }

/-- A sample interface entity carrying one link. -/
def demoInterface : NetworkInterface := { id := 7, links := [demoLink] }

/-- Sample link parameters. -/
def demoParams : NetworkInterfaceLinkParams :=
  { subnet := 3, mode := "STATIC", defaultGateway := false,
    ipAddress := "10.0.0.5" }

/-- A client whose machine fetch answers `m` and whose every other call
succeeds. -/
def demoClient (m : Machine) : Client where
  machineGet := fun _ => .ok m
  machineAbort := fun _ _ => .ok m
  machineRelease := fun _ => .ok m
  machineClearDefaultGateways := fun _ => .ok m
  interfaceGet := fun _ _ => .ok demoInterface
  linkSubnet := fun _ _ _ => .ok demoInterface
  unlinkSubnetCall := fun _ _ _ => .ok demoInterface
  setDefaultGateway := fun _ _ _ => .ok demoInterface

/-- A client whose machine fetch fails with an error that is not a
not-found error. -/
def fetchFailClient : Client :=
  { demoClient { systemID := "abc", status := StatusReady } with
    machineGet := fun _ => .error (.other "gateway timeout") }

/-- Claim C1 (counterexample): the machine fetch fails with an error that is
NOT a not-found error, yet `unlinkSubnet` still returns success (`nil`) and
issues no further gateway calls — the error is not propagated to the caller,
contrary to the claim. -/
theorem unlinkSubnet_fetch_error_not_propagated :
    fetchFailClient.machineGet "abc" = .error (.other "gateway timeout") ∧
    unlinkSubnet fetchFailClient "abc" 7 42 = ([.machineGet "abc"], none) ∧
    (unlinkSubnet fetchFailClient "abc" 7 42).2 ≠
      some (.other "gateway timeout") := by
  refine ⟨rfl, rfl, ?_⟩
  intro h
  exact Option.noConfusion h

/-- Claim C1 (amended): when the machine fetch fails with ANY error —
not-found or otherwise — `unlinkSubnet` returns success (`nil`) without
issuing any further gateway call; no fetch error is ever propagated. -/
theorem unlinkSubnet_fetch_error_noop (c : Client) (sid : String)
    (nid lid : Int) (e : GoError) (h : c.machineGet sid = .error e) :
    unlinkSubnet c sid nid lid = ([.machineGet sid], none) := by
  simp only [unlinkSubnet, h]

/-- Witness for the amended C1 at a concrete client. -/
theorem unlinkSubnet_fetch_error_noop_witness :
    unlinkSubnet fetchFailClient "abc" 7 42 = ([.machineGet "abc"], none) :=
  unlinkSubnet_fetch_error_noop fetchFailClient "abc" 7 42
    (.other "gateway timeout") rfl

/-- Claim C5: when the fetched machine's status is in the Valid set,
`unlinkSubnet` issues exactly one gateway call beyond the fetch — the unlink —
no lifecycle call, and returns the unlink call's error (if any) unchanged. -/
theorem unlinkSubnet_valid_trace (c : Client) (sid : String) (nid lid : Int)
    (m : Machine) (hget : c.machineGet sid = .ok m)
    (hcat : classify m.status = .valid) :
    unlinkSubnet c sid nid lid =
      ([.machineGet sid, .unlinkSubnetCall sid nid lid],
       errOf (c.unlinkSubnetCall sid nid lid)) := by
  simp only [unlinkSubnet, hget, hcat]

/-- Witness for C5: a Ready machine yields the fetch-then-unlink trace. -/
theorem unlinkSubnet_valid_trace_witness :
    unlinkSubnet (demoClient { systemID := "abc", status := StatusReady })
        "abc" 7 42 =
      ([.machineGet "abc", .unlinkSubnetCall "abc" 7 42], none) :=
  (unlinkSubnet_valid_trace
    (demoClient { systemID := "abc", status := StatusReady }) "abc" 7 42
    { systemID := "abc", status := StatusReady } rfl (by decide)).trans rfl

/-- Claim C2: when the fetched machine's status is in the Transitional set,
`unlinkSubnet` issues abort, release, unlink in that order (three calls beyond
the fetch); an abort failure stops before release and is returned, a release
failure stops before unlink and is returned. -/
theorem unlinkSubnet_transitional_trace (c : Client) (sid : String)
    (nid lid : Int) (m : Machine) (hget : c.machineGet sid = .ok m)
    (hcat : classify m.status = .transitional) :
    (∀ e, c.machineAbort m.systemID (abortEventLogMsg m.systemID) = .error e →
      unlinkSubnet c sid nid lid =
        ([.machineGet sid,
          .machineAbort m.systemID (abortEventLogMsg m.systemID)], some e)) ∧
    (∀ m2 e,
      c.machineAbort m.systemID (abortEventLogMsg m.systemID) = .ok m2 →
      c.machineRelease m2.systemID = .error e →
      unlinkSubnet c sid nid lid =
        ([.machineGet sid,
          .machineAbort m.systemID (abortEventLogMsg m.systemID),
          .machineRelease m2.systemID], some e)) ∧
    (∀ m2 m3,
      c.machineAbort m.systemID (abortEventLogMsg m.systemID) = .ok m2 →
      c.machineRelease m2.systemID = .ok m3 →
      unlinkSubnet c sid nid lid =
        ([.machineGet sid,
          .machineAbort m.systemID (abortEventLogMsg m.systemID),
          .machineRelease m2.systemID,
          .unlinkSubnetCall sid nid lid],
         errOf (c.unlinkSubnetCall sid nid lid))) := by
  refine ⟨?_, ?_, ?_⟩
  · intro e habort
    simp only [unlinkSubnet, hget, hcat, habort]
  · intro m2 e habort hrel
    simp only [unlinkSubnet, hget, hcat, habort, hrel]
  · intro m2 m3 habort hrel
    simp only [unlinkSubnet, hget, hcat, habort, hrel]

/-- Witness for C2: a Deploying machine with all calls succeeding yields the
fetch-abort-release-unlink trace. -/
theorem unlinkSubnet_transitional_trace_witness :
    unlinkSubnet (demoClient { systemID := "abc", status := StatusDeploying })
        "abc" 7 42 =
      ([.machineGet "abc", .machineAbort "abc" (abortEventLogMsg "abc"),
        .machineRelease "abc", .unlinkSubnetCall "abc" 7 42], none) :=
  ((unlinkSubnet_transitional_trace
    (demoClient { systemID := "abc", status := StatusDeploying }) "abc" 7 42
    { systemID := "abc", status := StatusDeploying } rfl (by decide)).2.2
    { systemID := "abc", status := StatusDeploying }
    { systemID := "abc", status := StatusDeploying } rfl rfl).trans rfl

/-- Claim C4: when the fetched machine's status is in the NonTransitional set,
`unlinkSubnet` issues release then unlink (two calls beyond the fetch) and
never abort; a release failure stops before unlink and is returned. -/
theorem unlinkSubnet_nonTransitional_trace (c : Client) (sid : String)
    (nid lid : Int) (m : Machine) (hget : c.machineGet sid = .ok m)
    (hcat : classify m.status = .nonTransitional) :
    (∀ e, c.machineRelease m.systemID = .error e →
      unlinkSubnet c sid nid lid =
        ([.machineGet sid, .machineRelease m.systemID], some e)) ∧
    (∀ m2, c.machineRelease m.systemID = .ok m2 →
      unlinkSubnet c sid nid lid =
        ([.machineGet sid, .machineRelease m.systemID,
          .unlinkSubnetCall sid nid lid],
         errOf (c.unlinkSubnetCall sid nid lid))) := by
  refine ⟨?_, ?_⟩
  · intro e hrel
    simp only [unlinkSubnet, hget, hcat, hrel]
  · intro m2 hrel
    simp only [unlinkSubnet, hget, hcat, hrel]

/-- Witness for C4: a Deployed machine with all calls succeeding yields the
fetch-release-unlink trace, with no abort call. -/
theorem unlinkSubnet_nonTransitional_trace_witness :
    unlinkSubnet (demoClient { systemID := "abc", status := StatusDeployed })
        "abc" 7 42 =
      ([.machineGet "abc", .machineRelease "abc",
        .unlinkSubnetCall "abc" 7 42], none) :=
  ((unlinkSubnet_nonTransitional_trace
    (demoClient { systemID := "abc", status := StatusDeployed }) "abc" 7 42
    { systemID := "abc", status := StatusDeployed } rfl (by decide)).2
    { systemID := "abc", status := StatusDeployed } rfl).trans rfl

/-- Claim C6: when the fetched machine's status is outside the closed
enumeration (classifies Unknown), `unlinkSubnet` issues zero gateway calls
beyond the fetch and fails with an error naming the unrecognized status. -/
theorem unlinkSubnet_unknown_status (c : Client) (sid : String)
    (nid lid : Int) (m : Machine) (hget : c.machineGet sid = .ok m)
    (hcat : classify m.status = .unknown) :
    unlinkSubnet c sid nid lid =
      ([.machineGet sid],
       some (.other ("cannot unlink subnet from machine in status " ++
         toString m.status))) := by
  simp only [unlinkSubnet, hget, hcat]

/-- Witness for C6: `StatusDefault` is in no arm of the switch, so teardown
refuses to act. -/
theorem unlinkSubnet_unknown_status_witness :
    unlinkSubnet (demoClient { systemID := "abc", status := StatusDefault })
        "abc" 7 42 =
      ([.machineGet "abc"],
       some (.other ("cannot unlink subnet from machine in status " ++
         toString StatusDefault))) :=
  unlinkSubnet_unknown_status
    (demoClient { systemID := "abc", status := StatusDefault }) "abc" 7 42
    { systemID := "abc", status := StatusDefault } rfl (by decide)

/-- A `findLink` hit is a link of the list whose ID is the requested one. -/
theorem findLink_some (lid : Int) :
    ∀ links l, findLink lid links = some l → l.id = lid ∧ l ∈ links := by
  intro links
  induction links with
  | nil => intro l h; exact Option.noConfusion h
  | cons hd tl ih =>
    intro l h
    by_cases hid : hd.id = lid
    · rw [findLink, if_pos hid] at h
      injection h with h
      subst h
      exact ⟨hid, List.mem_cons_self _ _⟩
    · rw [findLink, if_neg hid] at h
      obtain ⟨h1, h2⟩ := ih l h
      exact ⟨h1, List.mem_cons_of_mem _ h2⟩

/-- `findLink` misses exactly when no link of the list carries the ID. -/
theorem findLink_none (lid : Int) :
    ∀ links, findLink lid links = none ↔ ∀ l ∈ links, l.id ≠ lid := by
  intro links
  induction links with
  | nil => simp [findLink]
  | cons hd tl ih =>
    by_cases hid : hd.id = lid
    · rw [findLink, if_pos hid]
      constructor
      · intro h; exact Option.noConfusion h
      · intro h; exact absurd hid (h hd (List.mem_cons_self _ _))
    · rw [findLink, if_neg hid, ih, List.forall_mem_cons]
      exact ⟨fun h => ⟨hid, h⟩, fun h => h.2⟩

/-- Claim C8: `getNetworkInterfaceLink` fetches the interface (its only
gateway call — nothing mutating) and scans the links: a present ID returns the
matching link, an absent ID fails with the message naming link, interface and
machine; the scan result is characterised exactly. -/
theorem getNetworkInterfaceLink_spec (c : Client) (sid : String)
    (nid lid : Int) (ni : NetworkInterface)
    (hget : c.interfaceGet sid nid = .ok ni) :
    getNetworkInterfaceLink c sid nid lid =
      ([.interfaceGet sid nid],
       match findLink lid ni.links with
       | some l => .ok l
       | none => .error (.other (linkNotFoundMsg lid nid sid))) ∧
    (∀ l, findLink lid ni.links = some l → l.id = lid ∧ l ∈ ni.links) ∧
    (findLink lid ni.links = none ↔ ∀ l ∈ ni.links, l.id ≠ lid) := by
  exact ⟨by simp only [getNetworkInterfaceLink, hget],
    findLink_some lid ni.links, findLink_none lid ni.links⟩

/-- Witness for C8: looking up link 42 on the demo interface returns it. -/
theorem getNetworkInterfaceLink_spec_witness :
    getNetworkInterfaceLink
        (demoClient { systemID := "abc", status := StatusReady }) "abc" 7 42 =
      ([.interfaceGet "abc" 7], .ok demoLink) :=
  ((getNetworkInterfaceLink_spec
    (demoClient { systemID := "abc", status := StatusReady }) "abc" 7 42
    demoInterface rfl).1).trans rfl

/-- Claim C7: the update operation clears all default gateways before any set
call in every run; with the flag false it issues only the clear-all call, with
the flag true it issues the set call right after, and errors propagate. -/
theorem update_clear_before_set (c : Client) (sid : String) (nid lid : Int) :
    (∀ e, c.machineClearDefaultGateways sid = .error e →
      ∀ dg, resourceNetworkInterfaceLinkUpdate c sid nid lid dg =
        ([.machineClearDefaultGateways sid], some e)) ∧
    (∀ m, c.machineClearDefaultGateways sid = .ok m →
      resourceNetworkInterfaceLinkUpdate c sid nid lid false =
        ([.machineClearDefaultGateways sid], none) ∧
      resourceNetworkInterfaceLinkUpdate c sid nid lid true =
        ([.machineClearDefaultGateways sid, .setDefaultGateway sid nid lid],
         errOf (c.setDefaultGateway sid nid lid))) := by
  refine ⟨?_, ?_⟩
  · intro e h dg
    simp [resourceNetworkInterfaceLinkUpdate, h]
  · intro m h
    constructor <;> simp [resourceNetworkInterfaceLinkUpdate, h]

/-- Witness for C7: the concrete client issues clear-then-set with the flag
true and clear only with the flag false. -/
theorem update_clear_before_set_witness :
    resourceNetworkInterfaceLinkUpdate
        (demoClient { systemID := "abc", status := StatusReady })
        "abc" 7 42 true =
      ([.machineClearDefaultGateways "abc", .setDefaultGateway "abc" 7 42],
       none) ∧
    resourceNetworkInterfaceLinkUpdate
        (demoClient { systemID := "abc", status := StatusReady })
        "abc" 7 42 false =
      ([.machineClearDefaultGateways "abc"], none) := by
  have h := (update_clear_before_set
    (demoClient { systemID := "abc", status := StatusReady }) "abc" 7 42).2
    { systemID := "abc", status := StatusReady } rfl
  exact ⟨h.2.trans rfl, h.1⟩

/-- Claim C9: the classification implemented by the switch is total and
deterministic, the three membership sets are pairwise disjoint, each category
is reported exactly on its own set, and everything outside the closed
enumeration classifies Unknown. -/
theorem classify_spec :
    (∀ s ∈ validStatuses,
      s ∉ transitionalStatuses ∧ s ∉ nonTransitionalStatuses) ∧
    (∀ s ∈ transitionalStatuses, s ∉ nonTransitionalStatuses) ∧
    (∀ s : Nat,
      (classify s = .valid ↔ s ∈ validStatuses) ∧
      (classify s = .transitional ↔ s ∈ transitionalStatuses) ∧
      (classify s = .nonTransitional ↔ s ∈ nonTransitionalStatuses) ∧
      (classify s = .unknown ↔
        s ∉ validStatuses ∧ s ∉ transitionalStatuses ∧
          s ∉ nonTransitionalStatuses)) := by
  have hdisj1 : ∀ s ∈ validStatuses,
      s ∉ transitionalStatuses ∧ s ∉ nonTransitionalStatuses := by decide
  have hdisj2 : ∀ s ∈ transitionalStatuses,
      s ∉ nonTransitionalStatuses := by decide
  refine ⟨hdisj1, hdisj2, ?_⟩
  intro s
  by_cases hv : s ∈ validStatuses
  · obtain ⟨ht, hn⟩ := hdisj1 s hv
    simp [classify, hv, ht, hn]
  · by_cases htm : s ∈ transitionalStatuses
    · have hn := hdisj2 s htm
      simp [classify, hv, htm, hn]
    · by_cases hnm : s ∈ nonTransitionalStatuses
      · simp [classify, hv, htm, hnm]
      · simp [classify, hv, htm, hnm]

/-- Witness for C9 at concrete statuses of each kind. -/
theorem classify_spec_witness :
    (StatusNew ∉ transitionalStatuses ∧
      StatusNew ∉ nonTransitionalStatuses) ∧
    StatusCommissioning ∉ nonTransitionalStatuses ∧
    classify StatusReady = .valid ∧
    classify StatusDeploying = .transitional ∧
    classify StatusDeployed = .nonTransitional ∧
    classify StatusDefault = .unknown := by
  refine ⟨classify_spec.1 StatusNew (by decide),
    classify_spec.2.1 StatusCommissioning (by decide),
    (classify_spec.2.2 StatusReady).1.mpr (by decide),
    (classify_spec.2.2 StatusDeploying).2.1.mpr (by decide),
    (classify_spec.2.2 StatusDeployed).2.2.1.mpr (by decide),
    (classify_spec.2.2 StatusDefault).2.2.2.mpr (by decide)⟩

/-- When every teardown of the list succeeds, `clearLinks` issues the
concatenation of the individual teardown traces and succeeds. -/
theorem clearLinks_all_ok (c : Client) (sid : String) (nid : Int) :
    ∀ links, (∀ l ∈ links, (unlinkSubnet c sid nid l.id).2 = none) →
      clearLinks c sid nid links =
        ((links.map fun l => (unlinkSubnet c sid nid l.id).1).flatten, none) := by
  intro links
  induction links with
  | nil => intro _; simp [clearLinks]
  | cons hd tl ih =>
    intro h
    have hhd := h hd (List.mem_cons_self _ _)
    have htl := ih fun l hl => h l (List.mem_cons_of_mem _ hl)
    rcases hu : unlinkSubnet c sid nid hd.id with ⟨tr, r⟩
    rw [hu] at hhd
    simp only at hhd
    subst hhd
    simp [clearLinks, hu, htl]

/-- When the teardowns up to some link succeed and that link's teardown fails,
`clearLinks` stops there: its trace is the successful traces followed by the
failing teardown's trace, and the failing error is returned. -/
theorem clearLinks_first_fail (c : Client) (sid : String) (nid : Int)
    (l : NetworkInterfaceLink) (e : GoError)
    (hfail : (unlinkSubnet c sid nid l.id).2 = some e) :
    ∀ pre post, (∀ l2 ∈ pre, (unlinkSubnet c sid nid l2.id).2 = none) →
      clearLinks c sid nid (pre ++ l :: post) =
        ((pre.map fun l2 => (unlinkSubnet c sid nid l2.id).1).flatten ++
          (unlinkSubnet c sid nid l.id).1, some e) := by
  intro pre
  induction pre with
  | nil =>
    intro post _
    rcases hu : unlinkSubnet c sid nid l.id with ⟨tr, r⟩
    rw [hu] at hfail
    simp only at hfail
    subst hfail
    simp [clearLinks, hu]
  | cons hd tl ih =>
    intro post h
    have hhd := h hd (List.mem_cons_self _ _)
    rcases hu : unlinkSubnet c sid nid hd.id with ⟨tr, r⟩
    rw [hu] at hhd
    simp only at hhd
    subst hhd
    have htl := ih post fun l2 hl => h l2 (List.mem_cons_of_mem _ hl)
    simp [clearLinks, hu, htl]

/-- `unlinkSubnet` never issues the link-creation call. -/
theorem unlinkSubnet_no_linkSubnet (c : Client) (sid : String)
    (nid lid : Int) :
    ∀ gc ∈ (unlinkSubnet c sid nid lid).1, isLinkSubnetCall gc = false := by
  cases hg : c.machineGet sid with
  | error e => simp [unlinkSubnet, hg, isLinkSubnetCall]
  | ok m =>
    cases hc : classify m.status with
    | valid => simp [unlinkSubnet, hg, hc, isLinkSubnetCall]
    | transitional =>
      cases ha : c.machineAbort m.systemID (abortEventLogMsg m.systemID) with
      | error e => simp [unlinkSubnet, hg, hc, ha, isLinkSubnetCall]
      | ok m2 =>
        cases hr : c.machineRelease m2.systemID with
        | error e => simp [unlinkSubnet, hg, hc, ha, hr, isLinkSubnetCall]
        | ok m3 => simp [unlinkSubnet, hg, hc, ha, hr, isLinkSubnetCall]
    | nonTransitional =>
      cases hr : c.machineRelease m.systemID with
      | error e => simp [unlinkSubnet, hg, hc, hr, isLinkSubnetCall]
      | ok m2 => simp [unlinkSubnet, hg, hc, hr, isLinkSubnetCall]
    | unknown => simp [unlinkSubnet, hg, hc, isLinkSubnetCall]

/-- The teardown loop never issues the link-creation call. -/
theorem clearLinks_no_linkSubnet (c : Client) (sid : String) (nid : Int) :
    ∀ links, ∀ gc ∈ (clearLinks c sid nid links).1,
      isLinkSubnetCall gc = false := by
  intro links
  induction links with
  | nil => simp [clearLinks]
  | cons hd tl ih =>
    rcases hu : unlinkSubnet c sid nid hd.id with ⟨tr, r⟩
    have htr : ∀ gc ∈ tr, isLinkSubnetCall gc = false := by
      have h2 := unlinkSubnet_no_linkSubnet c sid nid hd.id
      rw [hu] at h2
      exact h2
    cases r with
    | some e =>
      intro gc hgc
      rw [clearLinks, hu] at hgc
      exact htr gc hgc
    | none =>
      rcases hcl : clearLinks c sid nid tl with ⟨tr2, r2⟩
      rw [hcl] at ih
      intro gc hgc
      rw [clearLinks, hu, hcl] at hgc
      simp only [List.mem_append] at hgc
      rcases hgc with hgc | hgc
      · exact htr gc hgc
      · exact ih gc hgc

/-- Claim C3: `createNetworkInterfaceLink` runs one teardown sequence per
existing link, in order, before the single `LinkSubnet` call; when every
teardown succeeds and the gateway answers with a non-empty link list the
result is its first link; when some teardown fails, the failing error is
returned and the creation call is never issued. -/
theorem createNetworkInterfaceLink_spec (c : Client) (sid : String)
    (ni : NetworkInterface) (params : NetworkInterfaceLinkParams) :
    (∀ ni2 l0 rest,
      (∀ l ∈ ni.links, (unlinkSubnet c sid ni.id l.id).2 = none) →
      c.linkSubnet sid ni.id params = .ok ni2 →
      ni2.links = l0 :: rest →
      createNetworkInterfaceLink c sid ni params =
        ((ni.links.map fun l => (unlinkSubnet c sid ni.id l.id).1).flatten ++
          [.linkSubnet sid ni.id params], .ok l0)) ∧
    (∀ pre l post e,
      ni.links = pre ++ l :: post →
      (∀ l2 ∈ pre, (unlinkSubnet c sid ni.id l2.id).2 = none) →
      (unlinkSubnet c sid ni.id l.id).2 = some e →
      createNetworkInterfaceLink c sid ni params =
        ((pre.map fun l2 => (unlinkSubnet c sid ni.id l2.id).1).flatten ++
          (unlinkSubnet c sid ni.id l.id).1, .err e) ∧
      ∀ gc ∈ (createNetworkInterfaceLink c sid ni params).1,
        isLinkSubnetCall gc = false) := by
  constructor
  · intro ni2 l0 rest hok hlink hlinks
    have hcl := clearLinks_all_ok c sid ni.id ni.links hok
    simp [createNetworkInterfaceLink, hcl, hlink, hlinks]
  · intro pre l post e hsplit hpre hfail
    have hcl := clearLinks_first_fail c sid ni.id l e hfail pre post hpre
    have hcreate : createNetworkInterfaceLink c sid ni params =
        ((pre.map fun l2 => (unlinkSubnet c sid ni.id l2.id).1).flatten ++
          (unlinkSubnet c sid ni.id l.id).1, .err e) := by
      rw [← hsplit] at hcl
      simp [createNetworkInterfaceLink, hcl]
    refine ⟨hcreate, ?_⟩
    intro gc hgc
    apply clearLinks_no_linkSubnet c sid ni.id ni.links gc
    rw [hsplit, hcl]
    rw [hcreate] at hgc
    exact hgc

/-- Witness for C3: clearing the demo interface's one link then creating the
new one issues the teardown trace followed by the creation call. -/
theorem createNetworkInterfaceLink_spec_witness :
    createNetworkInterfaceLink
        (demoClient { systemID := "abc", status := StatusReady })
        "abc" demoInterface demoParams =
      ([.machineGet "abc", .unlinkSubnetCall "abc" 7 42,
        .linkSubnet "abc" 7 demoParams], .ok demoLink) := by
  have h := (createNetworkInterfaceLink_spec
    (demoClient { systemID := "abc", status := StatusReady })
    "abc" demoInterface demoParams).1 demoInterface demoLink []
    (by decide) rfl rfl
  exact h.trans rfl

/-- Claim C10: after a successful `LinkSubnet` call, `createNetworkInterfaceLink`
takes the first element of the answered link list with no emptiness check: the
result is the first link exactly when the list is non-empty, and the empty list
produces the out-of-range access. -/
theorem createNetworkInterfaceLink_first_link (c : Client) (sid : String)
    (ni ni2 : NetworkInterface) (params : NetworkInterfaceLinkParams)
    (hok : ∀ l ∈ ni.links, (unlinkSubnet c sid ni.id l.id).2 = none)
    (hlink : c.linkSubnet sid ni.id params = .ok ni2) :
    ((createNetworkInterfaceLink c sid ni params).2 = .indexOutOfRange ↔
      ni2.links = []) ∧
    ∀ l0 rest, ni2.links = l0 :: rest →
      (createNetworkInterfaceLink c sid ni params).2 = .ok l0 := by
  have hcl := clearLinks_all_ok c sid ni.id ni.links hok
  constructor
  · cases hl : ni2.links with
    | nil => simp [createNetworkInterfaceLink, hcl, hlink, hl]
    | cons a as => simp [createNetworkInterfaceLink, hcl, hlink, hl]
  · intro l0 rest hl
    simp [createNetworkInterfaceLink, hcl, hlink, hl]

/-- An interface with no links. -/
def emptyInterface : NetworkInterface := { id := 7, links := [] }

/-- A client whose `LinkSubnet` call answers an interface with no links. -/
def emptyLinksClient : Client :=
  { demoClient { systemID := "abc", status := StatusReady } with
    linkSubnet := fun _ _ _ => .ok emptyInterface }

/-- Witness for C10: a gateway answering zero links drives the first-element
access out of range. -/
theorem createNetworkInterfaceLink_first_link_witness :
    (createNetworkInterfaceLink emptyLinksClient "abc" emptyInterface
      demoParams).2 = .indexOutOfRange := by
  have h := (createNetworkInterfaceLink_first_link emptyLinksClient "abc"
    emptyInterface emptyInterface demoParams
    (by intro l hl; exact absurd hl (by simp [emptyInterface])) rfl).1
  exact h.mpr rfl

end Maas
